import Mathlib

/-
Shallow embedding of the flat-C binding shim layer of the opensubdiv-petite
repository (c-api/far and c-api/osd sources), together with proofs about the
behaviour of the shim functions.

Modelling conventions:
* C float values are modelled as exact rationals.
* Pointers are modelled as Option values; a null pointer is none.
* A call whose C behaviour is undefined (for example dereferencing a null
  handle) is modelled by a none result, never by a sentinel value.
* Output buffers are lists; writing the first n slots of a buffer is modelled
  by replacing its n-element prefix.
* Behaviour of the wrapped subdivision library (not part of the shim sources)
  is modelled from the specification where a claim depends on it; such
  definitions carry a doc comment starting with the words Modelled from the
  spec.
-/

namespace Osd

/-- Patch types of the wrapped library patch descriptor enumeration. -/
inductive PatchType where
  | NON_PATCH
  | POINTS
  | LINES
  | QUADS
  | TRIANGLES
  | LOOP
  | REGULAR
  | GREGORY
  | GREGORY_BOUNDARY
  | GREGORY_BASIS
  | GREGORY_TRIANGLE
deriving DecidableEq, Inhabited

/-- Modelled from the spec: control-vertex counts of the wrapped library patch
descriptors; a REGULAR patch is a tensor-product cubic B-spline patch with
4 x 4 = 16 control vertices. Only the REGULAR count is relied on by the
claims. -/
def numControlVertices : PatchType → Nat
  | .NON_PATCH => 0
  | .POINTS => 1
  | .LINES => 2
  | .QUADS => 4
  | .TRIANGLES => 3
  | .LOOP => 12
  | .REGULAR => 16
  | .GREGORY => 4
  | .GREGORY_BOUNDARY => 4
  | .GREGORY_BASIS => 20
  | .GREGORY_TRIANGLE => 18

/-- Patch parametrization value type (base face plus packed bits); the shim
copies it by value, so only its identity matters here. -/
structure PatchParam where
  faceId : Int
  bitField : Nat
deriving DecidableEq, Inhabited

/-- One patch array of a patch table: a shared descriptor, a patch count, the
flat control-vertex index slice and the per-patch params. -/
structure PatchArray where
  desc : PatchType
  numPatches : Nat
  vertices : List Int
  params : List PatchParam
deriving DecidableEq, Inhabited

/-- A patch table is an ordered sequence of patch arrays. -/
structure PatchTable where
  arrays : List PatchArray
deriving DecidableEq, Inhabited

/-- Modelled from the spec: the wrapped GetNumPatchArrays query. -/
def PatchTable.numPatchArrays (t : PatchTable) : Nat :=
  t.arrays.length

/-- Modelled from the spec: the wrapped GetNumPatchesTotal query, the total
patch count over all patch arrays. -/
def PatchTable.numPatchesTotal (t : PatchTable) : Nat :=
  (t.arrays.map (fun a => a.numPatches)).sum

/-- Linear scan of patch_evaluator.cpp locating the patch array containing a
global patch index: patchArray starts at 0, localPatchIndex at patchIndex, and
the loop subtracts each array patch count until the local index fits.
The counter i tracks the current array index. -/
def locatePatchGo : List PatchArray → Nat → Int → Nat × Int
  | [], _, localIndex => (0, localIndex)
  | a :: rest, i, localIndex =>
    if localIndex < (a.numPatches : Int) then (i, localIndex)
    else locatePatchGo rest (i + 1) (localIndex - (a.numPatches : Int))

/-- The array-plus-local-index pair the linear scan of patch_evaluator.cpp
computes from a global patch index. -/
def locatePatch (arrays : List PatchArray) (patchIndex : Int) : Nat × Int :=
  locatePatchGo arrays 0 patchIndex

/-- Descriptor type of the patch array containing a global patch index, as
computed by the linear scan of patch_evaluator.cpp. -/
def PatchTable.descAt (t : PatchTable) (patchIndex : Int) : PatchType :=
  (t.arrays.getD (locatePatch t.arrays patchIndex).1 default).desc

/-- Writing a value into the first n slots of a float buffer, as the weight
loops of PatchTable_EvaluateBasis do. -/
def writeN (buf : List ℚ) (n : Nat) (w : ℚ) : List ℚ :=
  List.replicate n w ++ buf.drop n

/-- Return value and output buffers of PatchTable_EvaluateBasis: the boolean
result plus the six weight buffers after the call (none models a null
pointer that was passed for that buffer). -/
structure EvalBasisResult where
  ok : Bool
  wP : Option (List ℚ)
  wDu : Option (List ℚ)
  wDv : Option (List ℚ)
  wDuu : Option (List ℚ)
  wDuv : Option (List ℚ)
  wDvv : Option (List ℚ)
deriving DecidableEq

/-- PatchTable_EvaluateBasis of patch_evaluator.cpp. The source also fetches
the patch param of the located patch and normalizes (u, v) into local
variables; those normalized values flow into no output and not into the
return value, so u and v are unused here exactly as in the source. For a
REGULAR descriptor the source writes the placeholder uniform weight
1 / numControlVerts into each of the first numControlVerts slots of wP (when
non-null) and 0 into the first numControlVerts slots of each non-null
derivative buffer, returning true; every other path returns false without
touching any buffer. -/
def PatchTable_EvaluateBasis (table : Option PatchTable) (patchIndex : Int)
    (u v : ℚ) (wP wDu wDv wDuu wDuv wDvv : Option (List ℚ)) : EvalBasisResult :=
  match table with
  | none => ⟨false, wP, wDu, wDv, wDuu, wDuv, wDvv⟩
  | some t =>
    if patchIndex < 0 ∨ (t.numPatchesTotal : Int) ≤ patchIndex then
      ⟨false, wP, wDu, wDv, wDuu, wDuv, wDvv⟩
    else
      if t.descAt patchIndex = PatchType.REGULAR then
        ⟨true,
          wP.map (fun b => writeN b (numControlVertices (t.descAt patchIndex))
            (1 / (numControlVertices (t.descAt patchIndex) : ℚ))),
          wDu.map (fun b => writeN b (numControlVertices (t.descAt patchIndex)) 0),
          wDv.map (fun b => writeN b (numControlVertices (t.descAt patchIndex)) 0),
          wDuu.map (fun b => writeN b (numControlVertices (t.descAt patchIndex)) 0),
          wDuv.map (fun b => writeN b (numControlVertices (t.descAt patchIndex)) 0),
          wDvv.map (fun b => writeN b (numControlVertices (t.descAt patchIndex)) 0)⟩
      else ⟨false, wP, wDu, wDv, wDuu, wDuv, wDvv⟩

/-- A 3-float vector as used by the PatchEvalResult channels. -/
structure Vec3 where
  x : ℚ
  y : ℚ
  z : ℚ
deriving DecidableEq

/-- The PatchEvalResult out-structure of patch_evaluator.cpp: position plus
five derivative channels. -/
structure PatchEvalResult where
  point : Vec3
  du : Vec3
  dv : Vec3
  duu : Vec3
  duv : Vec3
  dvv : Vec3
deriving DecidableEq

/-- The zero initialization PatchTable_EvaluatePoint performs on the result
structure before accumulating. -/
def PatchEvalResult.zero : PatchEvalResult :=
  ⟨⟨0, 0, 0⟩, ⟨0, 0, 0⟩, ⟨0, 0, 0⟩, ⟨0, 0, 0⟩, ⟨0, 0, 0⟩, ⟨0, 0, 0⟩⟩

/-- One weighted accumulation step of the EvaluatePoint loop body. -/
def addWithWeight (a : Vec3) (w : ℚ) (cp : Vec3) : Vec3 :=
  ⟨a.x + w * cp.x, a.y + w * cp.y, a.z + w * cp.z⟩

/-- Reading the 3-float control point at a vertex index out of the flat
control-point array (the source reads controlPoints[vertexIndex * 3 + k]). -/
def readCPVec (cps : List ℚ) (vertexIndex : Int) : Vec3 :=
  ⟨cps.getD (vertexIndex.toNat * 3) 0,
   cps.getD (vertexIndex.toNat * 3 + 1) 0,
   cps.getD (vertexIndex.toNat * 3 + 2) 0⟩

/-- The accumulation loop of PatchTable_EvaluatePoint: cv counts up, the
remaining count decreases; a control-vertex index at least numControlPoints
aborts with false, leaving the accumulator at its partially updated value. -/
def evalPointGo (cvIndices : List Int) (cvStart : Nat) (cps : List ℚ)
    (numControlPoints : Int) (wP wDu wDv wDuu wDuv wDvv : List ℚ) :
    Nat → Nat → PatchEvalResult → Bool × PatchEvalResult
  | _, 0, acc => (true, acc)
  | cv, r + 1, acc =>
    let vertexIndex := cvIndices.getD (cvStart + cv) 0
    if numControlPoints ≤ vertexIndex then (false, acc)
    else
      let cp := readCPVec cps vertexIndex
      let acc1 : PatchEvalResult :=
        ⟨addWithWeight acc.point (wP.getD cv 0) cp,
         addWithWeight acc.du (wDu.getD cv 0) cp,
         addWithWeight acc.dv (wDv.getD cv 0) cp,
         addWithWeight acc.duu (wDuu.getD cv 0) cp,
         addWithWeight acc.duv (wDuv.getD cv 0) cp,
         addWithWeight acc.dvv (wDvv.getD cv 0) cp⟩
      evalPointGo cvIndices cvStart cps numControlPoints wP wDu wDv wDuu wDuv wDvv
        (cv + 1) r acc1

/-- PatchTable_EvaluatePoint of patch_evaluator.cpp. Null table, control
points or result return false with the result untouched; so does an
out-of-range patch index and a failing basis evaluation. After that the
source zero-initializes the result structure and accumulates, aborting with
false when a control-vertex index reaches numControlPoints; the partially
accumulated result remains written. The second component of the returned
pair is the value of the caller result slot after the call. -/
def PatchTable_EvaluatePoint (table : Option PatchTable) (patchIndex : Int)
    (u v : ℚ) (controlPoints : Option (List ℚ)) (numControlPoints : Int)
    (result : Option PatchEvalResult) : Bool × Option PatchEvalResult :=
  match table, controlPoints, result with
  | some t, some cps, some res0 =>
    if patchIndex < 0 ∨ (t.numPatchesTotal : Int) ≤ patchIndex then (false, some res0)
    else
      let loc := locatePatch t.arrays patchIndex
      let arr := t.arrays.getD loc.1 default
      let n := numControlVertices arr.desc
      let basis := PatchTable_EvaluateBasis (some t) patchIndex u v
        (some (List.replicate n 0)) (some (List.replicate n 0))
        (some (List.replicate n 0)) (some (List.replicate n 0))
        (some (List.replicate n 0)) (some (List.replicate n 0))
      if basis.ok = false then (false, some res0)
      else
        let cvStart := loc.2.toNat * n
        let r := evalPointGo arr.vertices cvStart cps numControlPoints
          (basis.wP.getD []) (basis.wDu.getD []) (basis.wDv.getD [])
          (basis.wDuu.getD []) (basis.wDuv.getD []) (basis.wDvv.getD [])
          0 n PatchEvalResult.zero
        (r.1, some r.2)
  | _, _, _ => (false, result)

/-- A stencil table: a control-vertex count plus the parallel flat arrays of
per-stencil sizes and offsets, and the shared control-index and weight
arrays. -/
structure StencilTable where
  numControlVertices : Nat
  sizes : List Nat
  offsets : List Nat
  indices : List Int
  weights : List ℚ
deriving DecidableEq

/-- Modelled from the spec: the wrapped GetNumStencils query, the stencil
count of the table. -/
def StencilTable.numStencils (st : StencilTable) : Nat :=
  st.sizes.length

/-- Modelled from the spec: the weighted sum one stencil contributes, over
scalar source values indexed by control-vertex index. -/
def stencilApply (st : StencilTable) (src : List ℚ) (i : Nat) : ℚ :=
  let sz := st.sizes.getD i 0
  let off := st.offsets.getD i 0
  (List.range sz).foldl
    (fun acc j =>
      acc + st.weights.getD (off + j) 0 *
        src.getD (st.indices.getD (off + j) 0).toNat 0) 0

/-- The clamped loop start of StencilTable_UpdateValues, line 91 of
stencil_table.cpp: actualStart is 0 when start is negative. -/
def actualStartIdx (start : Int) : Nat :=
  if start < 0 then 0 else start.toNat

/-- The clamped loop end of StencilTable_UpdateValues, line 92 of
stencil_table.cpp: actualEnd is numStencils when end is negative or exceeds
numStencils. -/
def actualEndIdx (numStencils : Nat) (endIdx : Int) : Nat :=
  if endIdx < 0 ∨ (numStencils : Int) < endIdx then numStencils else endIdx.toNat

/-- Replacing the elements of a buffer whose index (counted from i) lies in
the half-open range from lo to hi by values of f, leaving all other elements
in place. -/
def writeRange (f : Nat → ℚ) (lo hi : Nat) : List ℚ → Nat → List ℚ
  | [], _ => []
  | x :: xs, i => (if lo ≤ i ∧ i < hi then f i else x) :: writeRange f lo hi xs (i + 1)

/-- Modelled from the spec: the wrapped templated StencilTable UpdateValues,
which applies every stencil in the half-open start-end range (negative or
out-of-range bounds clamp to the full stencil range) writing one weighted-sum
output per stencil. The shim hands it a zero-initialized destination vector
of length numStencils. -/
def wrappedUpdateValues (st : StencilTable) (src : List ℚ)
    (start endIdx : Int) : List ℚ :=
  writeRange (fun i => stencilApply st src i) (actualStartIdx start)
    (actualEndIdx st.numStencils endIdx) (List.replicate st.numStencils 0) 0

/-- StencilTable_UpdateValues of stencil_table.cpp: copies src into the
wrapper values, invokes the wrapped UpdateValues into a fresh zeroed vector,
then copies the results back into dst over the clamped index range only.
The returned list is the dst buffer after the call. -/
def StencilTable_UpdateValues (st : StencilTable) (src dst : List ℚ)
    (start endIdx : Int) : List ℚ :=
  let dstValues := wrappedUpdateValues st src start endIdx
  writeRange (fun i => dstValues.getD i 0) (actualStartIdx start)
    (actualEndIdx st.numStencils endIdx) dst 0

/-- StencilTable_GetNumStencils of stencil_table.cpp: the source has no null
guard and immediately calls a method of the handle, so a null handle is a
null dereference, modelled as none. -/
def StencilTable_GetNumStencils (st : Option StencilTable) : Option Int :=
  st.map (fun s => (s.numStencils : Int))

/-- StencilTable_GetNumControlVertices of stencil_table.cpp: no null guard,
a null handle is dereferenced, modelled as none. -/
def StencilTable_GetNumControlVertices (st : Option StencilTable) : Option Int :=
  st.map (fun s => (s.numControlVertices : Int))

/-- StencilTable_destroy of stencil_table.cpp: a plain delete; deleting a
null pointer is a defined no-op, so every input yields a defined result. -/
def StencilTable_destroy (st : Option StencilTable) : Option Unit :=
  some ()

/-- The topology refiner, modelled with the one query the claims touch. -/
structure TopologyRefiner where
  numLevels : Nat
deriving DecidableEq

/-- TopologyRefiner_GetNumLevels of topology_refiner.cpp: the source has no
null guard and immediately calls a method of the handle, so a null handle is
a null dereference, modelled as none. -/
def TopologyRefiner_GetNumLevels (refiner : Option TopologyRefiner) : Option Int :=
  refiner.map (fun t => (t.numLevels : Int))

/-- TopologyRefiner_destroy of topology_refiner.cpp: a plain delete; deleting
a null pointer is a defined no-op. -/
def TopologyRefiner_destroy (refiner : Option TopologyRefiner) : Option Unit :=
  some ()

/-- The decoded option fields LimitStencilTableFactory_Create fills in
(bool bitfields of the wrapped options struct are modelled as 0-or-1
naturals, exactly the values the source assigns). -/
structure LimitStencilOptions where
  interpolationMode : Nat
  generate1stDerivatives : Nat
  generate2ndDerivatives : Nat
  fvarChannel : Nat
deriving DecidableEq

/-- The bitfield unpacking of LimitStencilTableFactory_Create in
limit_stencil_table.cpp: bits 0-1 give the interpolation mode, bit 2 the
first-derivative flag, bit 3 the second-derivative flag; fvarChannel is
passed through separately. -/
def decodeLimitStencilOptions (optionsBitfield fvarChannel : Nat) :
    LimitStencilOptions :=
  ⟨optionsBitfield &&& 0x3, (optionsBitfield >>> 2) &&& 0x1,
   (optionsBitfield >>> 3) &&& 0x1, fvarChannel⟩

/-- Modelled from the spec: the documented bit layout of the limit-stencil
options bitfield — interpolation mode in bits 0-1, first-derivative flag in
bit 2, second-derivative flag in bit 3. -/
def encodeLimitStencilBitfield (interpolationMode d1 d2 : Nat) : Nat :=
  interpolationMode ||| (d1 <<< 2) ||| (d2 <<< 3)

/-- The primvar refiner handle, bound to one topology refiner. -/
structure PrimvarRefiner where
  refiner : TopologyRefiner
deriving DecidableEq

/-- Observable outcome of one primvar interpolation entry point: either the
call dispatched to the fixed-width interpolation of the given element width
and returned normally, or it reported the invalid width and terminated the
process. -/
inductive InterpOutcome where
  | dispatched (width : Int)
  | terminated (reportedWidth : Int)
deriving DecidableEq

/-- PrimvarRefiner_Interpolate of primvar_refiner.cpp: a switch over
num_elements dispatching to the width-1 to width-4 instantiations; any other
width prints the invalid size and calls std terminate. -/
def PrimvarRefiner_Interpolate (pr : Option PrimvarRefiner)
    (numElements level : Int) (src dst : List ℚ) : InterpOutcome :=
  if numElements = 1 then .dispatched 1
  else if numElements = 2 then .dispatched 2
  else if numElements = 3 then .dispatched 3
  else if numElements = 4 then .dispatched 4
  else .terminated numElements

/-- PrimvarRefiner_InterpolateVarying of primvar_refiner.cpp: same dispatch
structure as PrimvarRefiner_Interpolate. -/
def PrimvarRefiner_InterpolateVarying (pr : Option PrimvarRefiner)
    (numElements level : Int) (src dst : List ℚ) : InterpOutcome :=
  if numElements = 1 then .dispatched 1
  else if numElements = 2 then .dispatched 2
  else if numElements = 3 then .dispatched 3
  else if numElements = 4 then .dispatched 4
  else .terminated numElements

/-- PrimvarRefiner_InterpolateFaceUniform of primvar_refiner.cpp: same
dispatch structure as PrimvarRefiner_Interpolate. -/
def PrimvarRefiner_InterpolateFaceUniform (pr : Option PrimvarRefiner)
    (numElements level : Int) (src dst : List ℚ) : InterpOutcome :=
  if numElements = 1 then .dispatched 1
  else if numElements = 2 then .dispatched 2
  else if numElements = 3 then .dispatched 3
  else if numElements = 4 then .dispatched 4
  else .terminated numElements

/-- PrimvarRefiner_InterpolateFaceVarying of primvar_refiner.cpp: same
dispatch structure as PrimvarRefiner_Interpolate. -/
def PrimvarRefiner_InterpolateFaceVarying (pr : Option PrimvarRefiner)
    (numElements level : Int) (src dst : List ℚ) : InterpOutcome :=
  if numElements = 1 then .dispatched 1
  else if numElements = 2 then .dispatched 2
  else if numElements = 3 then .dispatched 3
  else if numElements = 4 then .dispatched 4
  else .terminated numElements

/-- Outcome of PatchTable_GetPatchParam: either the call returned without
writing the out-structure, or it forwarded the given indices to the wrapped
GetPatchParam and wrote the result into the out-structure. -/
inductive PatchParamWrite where
  | noWrite
  | forwarded (arrayIndex patchIndex : Int)
deriving DecidableEq

/-- PatchTable_GetPatchParam of patch_table.cpp: after the null check on the
out-pointer, the source sets handle to the size of the control-vertex array
of the patch array (not its patch count) and returns early only when
patchIndex is negative or at least that size; otherwise it forwards to the
wrapped GetPatchParam and writes the out-structure. -/
def PatchTable_GetPatchParam (table : PatchTable) (arrayIndex patchIndex : Int)
    (paramIsNull : Bool) : PatchParamWrite :=
  if paramIsNull then .noWrite
  else
    let handle : Int :=
      ((table.arrays.getD arrayIndex.toNat default).vertices.length : Int)
    if patchIndex < 0 ∨ handle ≤ patchIndex then .noWrite
    else .forwarded arrayIndex patchIndex

/-- The value-struct buffer descriptor of the osd shims. -/
structure BufferDescriptor where
  offset : Int
  len : Int
  stride : Int
deriving DecidableEq

/-- CLStencilTable_Create stub of opencl_evaluator.cpp when OpenCL is
compiled out: always returns null, reads nothing. -/
def CLStencilTable_Create (cvStencils : Option StencilTable)
    (clContext : Option Unit) : Option Unit :=
  none

/-- CLStencilTable_destroy stub: a no-op, defined for every input. -/
def CLStencilTable_destroy (clStencilTable : Option Unit) : Option Unit :=
  some ()

/-- CLEvaluator_EvalStencils stub of opencl_evaluator.cpp when OpenCL is
compiled out: always returns false; the destination buffer contents are
returned unchanged because the stub never touches them. -/
def CLEvaluator_EvalStencils (srcBuffer : Option (List ℚ))
    (srcDesc : BufferDescriptor) (dstBuffer : Option (List ℚ))
    (dstDesc : BufferDescriptor) (stencilTable : Option Unit)
    (kernel commandQueue : Option Unit) : Bool × Option (List ℚ) :=
  (false, dstBuffer)

/-- CLVertexBuffer_Create stub of opencl_vertex_buffer.cpp when OpenCL is
compiled out: always returns null. -/
def CLVertexBuffer_Create (numElements numVertices : Int)
    (clContext : Option Unit) : Option (List ℚ) :=
  none

/-- CLVertexBuffer_destroy stub: a no-op, defined for every input. -/
def CLVertexBuffer_destroy (vb : Option (List ℚ)) : Option Unit :=
  some ()

/-- CLVertexBuffer_UpdateData stub: a no-op, the buffer contents are
returned exactly as supplied. -/
def CLVertexBuffer_UpdateData (vb : Option (List ℚ)) (src : Option (List ℚ))
    (startVertex numVertices : Int) (clCommandQueue : Option Unit) :
    Option (List ℚ) :=
  vb

/-- CLVertexBuffer_GetNumElements stub: always 0. -/
def CLVertexBuffer_GetNumElements (vb : Option (List ℚ)) : Int :=
  0

/-- CLVertexBuffer_GetNumVertices stub: always 0. -/
def CLVertexBuffer_GetNumVertices (vb : Option (List ℚ)) : Int :=
  0

/-- CLVertexBuffer_BindCLBuffer stub: always returns null. -/
def CLVertexBuffer_BindCLBuffer (vb : Option (List ℚ))
    (clCommandQueue : Option Unit) : Option Unit :=
  none

/-- Length preservation of the range write. -/
theorem writeRange_length (f : Nat → ℚ) (lo hi : Nat) :
    ∀ (xs : List ℚ) (i : Nat), (writeRange f lo hi xs i).length = xs.length := by
  intro xs
  induction xs with
  | nil => intro i; rfl
  | cons x xs ih => intro i; simp [writeRange, ih]

/-- Elements whose absolute index lies outside the written range keep their
value under the range write. -/
theorem writeRange_getD_of_notin (f : Nat → ℚ) (lo hi : Nat) :
    ∀ (xs : List ℚ) (i j : Nat) (d : ℚ), ¬(lo ≤ i + j ∧ i + j < hi) →
      (writeRange f lo hi xs i).getD j d = xs.getD j d := by
  intro xs
  induction xs with
  | nil => intro i j d h; rfl
  | cons x xs ih =>
    intro i j d h
    cases j with
    | zero =>
      have hc : ¬(lo ≤ i ∧ i < hi) := by omega
      simp [writeRange, if_neg hc]
    | succ j =>
      have h2 : ¬(lo ≤ (i + 1) + j ∧ (i + 1) + j < hi) := by omega
      simp only [writeRange, List.getD_cons_succ]
      exact ih (i + 1) j d h2

/-- The update call is determined by the clamped bounds. -/
theorem updateValues_eq_of_clamps_eq (st : StencilTable) (src dst : List ℚ)
    {s1 e1 s2 e2 : Int}
    (hlo : actualStartIdx s1 = actualStartIdx s2)
    (hhi : actualEndIdx st.numStencils e1 = actualEndIdx st.numStencils e2) :
    StencilTable_UpdateValues st src dst s1 e1 =
      StencilTable_UpdateValues st src dst s2 e2 := by
  unfold StencilTable_UpdateValues wrappedUpdateValues
  rw [hlo, hhi]

/-- C3 (amended): clamping of StencilTable_UpdateValues is per bound — the
call behaves as with start replaced by max(start, 0) and end replaced by
numStencils when end is negative or exceeds numStencils; in particular when
start is negative and end is simultaneously out of range the call behaves
identically to the full range (0, numStencils). -/
theorem updateValues_clamps_bounds (st : StencilTable) (src dst : List ℚ)
    (start endIdx : Int) :
    (StencilTable_UpdateValues st src dst start endIdx =
      StencilTable_UpdateValues st src dst (max start 0)
        (if endIdx < 0 ∨ (st.numStencils : Int) < endIdx then (st.numStencils : Int)
         else endIdx)) ∧
    (start < 0 → (endIdx < 0 ∨ (st.numStencils : Int) < endIdx) →
      StencilTable_UpdateValues st src dst start endIdx =
        StencilTable_UpdateValues st src dst 0 (st.numStencils : Int)) := by
  constructor
  · apply updateValues_eq_of_clamps_eq
    · unfold actualStartIdx
      rw [Int.max_def]
      split_ifs <;> omega
    · unfold actualEndIdx
      split_ifs <;> omega
  · intro h1 h2
    apply updateValues_eq_of_clamps_eq
    · unfold actualStartIdx
      split_ifs <;> omega
    · unfold actualEndIdx
      split_ifs <;> omega

/-- Two-stencil table used for the concrete stencil computations: each
stencil holds a single weight 1 on control vertex 0. -/
def stC : StencilTable :=
  ⟨1, [1, 1], [0, 1], [0, 0], [1, 1]⟩

/-- C3 (counterexample): with start = -1 (so start is negative, satisfying
the claimed precondition) and in-range end = 1 the call writes only dst slot
0, differing from the full-range call at slot 1 — the claimed equivalence to
(0, numStencils) fails. -/
theorem updateValues_counterexample :
    (-1 : Int) < 0 ∧
    StencilTable_UpdateValues stC [2] [0, 0] (-1) 1 ≠
      StencilTable_UpdateValues stC [2] [0, 0] 0 2 := by
  refine ⟨by decide, ?_⟩
  norm_num [StencilTable_UpdateValues, wrappedUpdateValues, writeRange, stencilApply,
    actualStartIdx, actualEndIdx, stC, StencilTable.numStencils, List.range_succ]

/-- Witness for the amended C3 theorem at start = -2, end = 100 on the
concrete two-stencil table. -/
theorem updateValues_clamps_bounds_witness :
    ((-2 : Int) < 0) ∧ ((100 : Int) < 0 ∨ (stC.numStencils : Int) < 100) ∧
    StencilTable_UpdateValues stC [2] [0, 0] (-2) 100 =
      StencilTable_UpdateValues stC [2] [0, 0] 0 (stC.numStencils : Int) :=
  ⟨by decide, by decide,
    (updateValues_clamps_bounds stC [2] [0, 0] (-2) 100).2 (by decide) (by decide)⟩

/-- C10: StencilTable_UpdateValues writes dst only inside the clamped range;
every dst element at an index below max(start, 0) or at least the clamped
end keeps exactly its prior value, and the dst length is preserved. -/
theorem updateValues_frame (st : StencilTable) (src dst : List ℚ)
    (start endIdx : Int) (i : Nat) (d : ℚ)
    (h : (i : Int) < max start 0 ∨
      (if endIdx < 0 ∨ (st.numStencils : Int) < endIdx then (st.numStencils : Int)
       else endIdx) ≤ (i : Int)) :
    (StencilTable_UpdateValues st src dst start endIdx).getD i d = dst.getD i d ∧
    (StencilTable_UpdateValues st src dst start endIdx).length = dst.length := by
  constructor
  · show (writeRange _ (actualStartIdx start) (actualEndIdx st.numStencils endIdx) dst 0).getD i d = dst.getD i d
    apply writeRange_getD_of_notin
    unfold actualStartIdx actualEndIdx
    rcases h with h | h
    · rw [Int.max_def] at h
      split_ifs at h ⊢ <;> omega
    · split_ifs at h ⊢ <;> omega
  · exact writeRange_length _ _ _ dst 0

/-- Witness for the C10 frame theorem at index 1 with start = -1, end = 1 on
the concrete two-stencil table. -/
theorem updateValues_frame_witness :
    (((1 : Nat) : Int) < max (-1 : Int) 0 ∨
      (if (1 : Int) < 0 ∨ (stC.numStencils : Int) < 1 then (stC.numStencils : Int)
       else 1) ≤ ((1 : Nat) : Int)) ∧
    (StencilTable_UpdateValues stC [2] [0, 0] (-1) 1).getD 1 0 =
      ([0, 0] : List ℚ).getD 1 0 ∧
    (StencilTable_UpdateValues stC [2] [0, 0] (-1) 1).length =
      ([0, 0] : List ℚ).length :=
  ⟨by decide, updateValues_frame stC [2] [0, 0] (-1) 1 1 0 (by decide)⟩

/-- C5: the bitfield decoding of LimitStencilTableFactory_Create extracts the
interpolation mode from bits 0-1, the first-derivative flag from bit 2 and
the second-derivative flag from bit 3 of any 32-bit bitfield, and decoding an
encoded {mode, d1, d2} triple reconstructs exactly those three fields
(fvarChannel passing through unchanged). -/
theorem limitStencilOptions_roundtrip :
    (∀ b fv : Nat, b < 2 ^ 32 →
      (decodeLimitStencilOptions b fv).interpolationMode = b % 4 ∧
      (decodeLimitStencilOptions b fv).generate1stDerivatives = b / 4 % 2 ∧
      (decodeLimitStencilOptions b fv).generate2ndDerivatives = b / 8 % 2) ∧
    (∀ m d1 d2 fv : Nat, m < 4 → d1 < 2 → d2 < 2 →
      decodeLimitStencilOptions (encodeLimitStencilBitfield m d1 d2) fv =
        ⟨m, d1, d2, fv⟩) := by
  constructor
  · intro b fv _
    refine ⟨?_, ?_, ?_⟩
    · show b &&& 3 = b % 4
      have h := Nat.and_pow_two_sub_one_eq_mod b 2
      simpa using h
    · show (b >>> 2) &&& 1 = b / 4 % 2
      rw [Nat.and_one_is_mod, Nat.shiftRight_eq_div_pow]
    · show (b >>> 3) &&& 1 = b / 8 % 2
      rw [Nat.and_one_is_mod, Nat.shiftRight_eq_div_pow]
  · intro m d1 d2 fv hm h1 h2
    interval_cases m <;> interval_cases d1 <;> interval_cases d2 <;> rfl

/-- Witness for the C5 round-trip theorem at bitfield 13 and at the encoded
triple (2, 1, 0). -/
theorem limitStencilOptions_roundtrip_witness :
    ((13 : Nat) < 2 ^ 32 ∧
      (decodeLimitStencilOptions 13 7).interpolationMode = 13 % 4 ∧
      (decodeLimitStencilOptions 13 7).generate1stDerivatives = 13 / 4 % 2 ∧
      (decodeLimitStencilOptions 13 7).generate2ndDerivatives = 13 / 8 % 2) ∧
    decodeLimitStencilOptions (encodeLimitStencilBitfield 2 1 0) 7 = ⟨2, 1, 0, 7⟩ :=
  ⟨⟨by decide, limitStencilOptions_roundtrip.1 13 7 (by decide)⟩,
    limitStencilOptions_roundtrip.2 2 1 0 7 (by decide) (by decide) (by decide)⟩

/-- C6: every primvar interpolation entry point dispatches to the fixed-width
interpolation of the requested element count and returns normally when that
count is 1, 2, 3 or 4, and otherwise reports the invalid size and terminates
the process instead of returning. -/
theorem primvarInterpolate_dispatch (pr : Option PrimvarRefiner)
    (numElements level : Int) (src dst : List ℚ) :
    ((numElements = 1 ∨ numElements = 2 ∨ numElements = 3 ∨ numElements = 4) →
      PrimvarRefiner_Interpolate pr numElements level src dst =
        .dispatched numElements ∧
      PrimvarRefiner_InterpolateVarying pr numElements level src dst =
        .dispatched numElements ∧
      PrimvarRefiner_InterpolateFaceUniform pr numElements level src dst =
        .dispatched numElements ∧
      PrimvarRefiner_InterpolateFaceVarying pr numElements level src dst =
        .dispatched numElements) ∧
    (¬(numElements = 1 ∨ numElements = 2 ∨ numElements = 3 ∨ numElements = 4) →
      PrimvarRefiner_Interpolate pr numElements level src dst =
        .terminated numElements ∧
      PrimvarRefiner_InterpolateVarying pr numElements level src dst =
        .terminated numElements ∧
      PrimvarRefiner_InterpolateFaceUniform pr numElements level src dst =
        .terminated numElements ∧
      PrimvarRefiner_InterpolateFaceVarying pr numElements level src dst =
        .terminated numElements) := by
  constructor
  · intro h
    rcases h with h | h | h | h <;> subst h <;> exact ⟨rfl, rfl, rfl, rfl⟩
  · intro h
    push_neg at h
    obtain ⟨h1, h2, h3, h4⟩ := h
    refine ⟨?_, ?_, ?_, ?_⟩ <;>
      simp [PrimvarRefiner_Interpolate, PrimvarRefiner_InterpolateVarying,
        PrimvarRefiner_InterpolateFaceUniform, PrimvarRefiner_InterpolateFaceVarying,
        h1, h2, h3, h4]

/-- Witness for the C6 dispatch theorem at element counts 3 (dispatching)
and 7 (terminating). -/
theorem primvarInterpolate_dispatch_witness :
    (PrimvarRefiner_Interpolate none 3 0 [] [] = .dispatched 3 ∧
      PrimvarRefiner_InterpolateVarying none 3 0 [] [] = .dispatched 3 ∧
      PrimvarRefiner_InterpolateFaceUniform none 3 0 [] [] = .dispatched 3 ∧
      PrimvarRefiner_InterpolateFaceVarying none 3 0 [] [] = .dispatched 3) ∧
    (PrimvarRefiner_Interpolate none 7 0 [] [] = .terminated 7 ∧
      PrimvarRefiner_InterpolateVarying none 7 0 [] [] = .terminated 7 ∧
      PrimvarRefiner_InterpolateFaceUniform none 7 0 [] [] = .terminated 7 ∧
      PrimvarRefiner_InterpolateFaceVarying none 7 0 [] [] = .terminated 7) :=
  ⟨(primvarInterpolate_dispatch none 3 0 [] []).1 (by decide),
    (primvarInterpolate_dispatch none 7 0 [] []).2 (by decide)⟩

/-- C2 (counterexample): StencilTable_GetNumStencils and
TopologyRefiner_GetNumLevels have no null guard; on a null handle they
dereference it (modelled: no defined result at all), instead of returning
the documented 0 sentinel. -/
theorem nullAccessor_counterexample :
    StencilTable_GetNumStencils none = none ∧
    TopologyRefiner_GetNumLevels none = none ∧
    StencilTable_GetNumStencils none ≠ some 0 ∧
    TopologyRefiner_GetNumLevels none ≠ some 0 := by
  refine ⟨rfl, rfl, ?_, ?_⟩ <;> simp [StencilTable_GetNumStencils,
    TopologyRefiner_GetNumLevels]

/-- C2 (amended): destructors accept a null handle as a defined no-op, and
the patch-evaluator entry points with explicit null guards return false with
every output untouched on a null handle; but the plain accessors (for
example StencilTable_GetNumStencils, StencilTable_GetNumControlVertices and
TopologyRefiner_GetNumLevels) perform no null check and dereference the
handle, so a null handle there is undefined behaviour, not a sentinel
return. -/
theorem null_handling_actual :
    (∀ st, StencilTable_destroy st = some ()) ∧
    (∀ refiner, TopologyRefiner_destroy refiner = some ()) ∧
    StencilTable_GetNumStencils none = none ∧
    StencilTable_GetNumControlVertices none = none ∧
    TopologyRefiner_GetNumLevels none = none ∧
    (∀ patchIndex u v wP wDu wDv wDuu wDuv wDvv,
      PatchTable_EvaluateBasis none patchIndex u v wP wDu wDv wDuu wDuv wDvv =
        ⟨false, wP, wDu, wDv, wDuu, wDuv, wDvv⟩) ∧
    (∀ patchIndex u v controlPoints numControlPoints result,
      PatchTable_EvaluatePoint none patchIndex u v controlPoints
        numControlPoints result = (false, result)) := by
  refine ⟨fun _ => rfl, fun _ => rfl, rfl, rfl, rfl, fun _ _ _ _ _ _ _ _ _ => rfl,
    fun patchIndex u v controlPoints numControlPoints result => ?_⟩
  cases controlPoints <;> cases result <;> rfl

/-- Concrete patch table for the GetPatchParam bounds bug: its single patch
array holds exactly one REGULAR patch, hence 16 control-vertex indices. -/
def patchParamBugTable : PatchTable :=
  ⟨[⟨.REGULAR, 1, List.replicate 16 0, [⟨0, 0⟩]⟩]⟩

/-- C8 (code bug): patch array 0 of the concrete table holds exactly 1 patch,
so patch index 5 is out of range, yet PatchTable_GetPatchParam forwards the
call to the wrapped library and writes the out-structure, because its guard
compares the patch index against the control-vertex count of the array (16)
instead of the patch count. -/
theorem getPatchParam_bug_eval :
    (patchParamBugTable.arrays.getD 0 default).numPatches = 1 ∧
    (1 : Int) ≤ 5 ∧
    PatchTable_GetPatchParam patchParamBugTable 0 5 false =
      PatchParamWrite.forwarded 0 5 := by
  refine ⟨rfl, by decide, ?_⟩
  decide

/-- C9: with OpenCL compiled out, every OpenCL shim function returns its
null, false or 0 sentinel (or is a defined no-op) for every input, and no
pointed-to buffer is read or modified. -/
theorem openclStubs_inert :
    (∀ cvStencils clContext, CLStencilTable_Create cvStencils clContext = none) ∧
    (∀ clStencilTable, CLStencilTable_destroy clStencilTable = some ()) ∧
    (∀ srcBuffer srcDesc dstBuffer dstDesc stencilTable kernel commandQueue,
      CLEvaluator_EvalStencils srcBuffer srcDesc dstBuffer dstDesc stencilTable
        kernel commandQueue = (false, dstBuffer)) ∧
    (∀ numElements numVertices clContext,
      CLVertexBuffer_Create numElements numVertices clContext = none) ∧
    (∀ vb, CLVertexBuffer_destroy vb = some ()) ∧
    (∀ vb src startVertex numVertices clCommandQueue,
      CLVertexBuffer_UpdateData vb src startVertex numVertices clCommandQueue = vb) ∧
    (∀ vb, CLVertexBuffer_GetNumElements vb = 0) ∧
    (∀ vb, CLVertexBuffer_GetNumVertices vb = 0) ∧
    (∀ vb clCommandQueue, CLVertexBuffer_BindCLBuffer vb clCommandQueue = none) :=
  ⟨fun _ _ => rfl, fun _ => rfl, fun _ _ _ _ _ _ _ => rfl, fun _ _ _ => rfl,
    fun _ => rfl, fun _ _ _ _ _ => rfl, fun _ => rfl, fun _ => rfl, fun _ _ => rfl⟩

/-- C1: for a non-null patch table, an in-range patch index and any (u, v),
when the located patch array descriptor is REGULAR with n control vertices,
PatchTable_EvaluateBasis returns true, writes the uniform weight 1/n into
each of the n position-weight slots of the supplied wP buffer (so those
weights sum to 1), and writes 0 into each of the n slots of every non-null
derivative weight buffer. -/
theorem evaluateBasis_regular_uniform (t : PatchTable) (patchIndex : Int)
    (u v : ℚ) (wPbuf : List ℚ) (wDu wDv wDuu wDuv wDvv : Option (List ℚ))
    (n : Nat) (h0 : 0 ≤ patchIndex) (h1 : patchIndex < (t.numPatchesTotal : Int))
    (hreg : t.descAt patchIndex = PatchType.REGULAR)
    (hn : n = numControlVertices (t.descAt patchIndex)) :
    PatchTable_EvaluateBasis (some t) patchIndex u v (some wPbuf)
        wDu wDv wDuu wDuv wDvv =
      ⟨true, some (writeN wPbuf n (1 / (n : ℚ))),
        wDu.map (fun b => writeN b n 0), wDv.map (fun b => writeN b n 0),
        wDuu.map (fun b => writeN b n 0), wDuv.map (fun b => writeN b n 0),
        wDvv.map (fun b => writeN b n 0)⟩ ∧
    (writeN wPbuf n (1 / (n : ℚ))).take n = List.replicate n (1 / (n : ℚ)) ∧
    ((writeN wPbuf n (1 / (n : ℚ))).take n).sum = 1 := by
  have hcond : ¬(patchIndex < 0 ∨ (t.numPatchesTotal : Int) ≤ patchIndex) := by
    omega
  have htake : (writeN wPbuf n (1 / (n : ℚ))).take n =
      List.replicate n (1 / (n : ℚ)) := by
    unfold writeN
    exact List.take_left' (List.length_replicate n _)
  have hn3 : numControlVertices PatchType.REGULAR = n := by rw [hn, hreg]
  refine ⟨?_, htake, ?_⟩
  · simp only [PatchTable_EvaluateBasis, if_neg hcond, hreg, hn3, if_true,
      reduceIte]
    rfl
  · rw [htake, hn, hreg]
    norm_num [numControlVertices, List.sum_replicate, nsmul_eq_mul]

/-- Concrete one-array patch table with a single REGULAR patch, used as a
witness input. -/
def sampleRegularTable : PatchTable :=
  ⟨[⟨.REGULAR, 1, List.replicate 16 0, [⟨0, 0⟩]⟩]⟩

/-- Witness for the C1 theorem on the concrete one-patch REGULAR table. -/
theorem evaluateBasis_regular_uniform_witness :
    ((0 : Int) ≤ 0 ∧ (0 : Int) < (sampleRegularTable.numPatchesTotal : Int) ∧
      sampleRegularTable.descAt 0 = PatchType.REGULAR ∧
      16 = numControlVertices (sampleRegularTable.descAt 0)) ∧
    (PatchTable_EvaluateBasis (some sampleRegularTable) 0 0 0
        (some (List.replicate 16 0)) (some (List.replicate 16 0))
        none none none none =
      ⟨true, some (writeN (List.replicate 16 0) 16 (1 / ((16 : Nat) : ℚ))),
        some (writeN (List.replicate 16 0) 16 0), none, none, none, none⟩ ∧
      (writeN (List.replicate 16 0) 16 (1 / ((16 : Nat) : ℚ))).take 16 =
        List.replicate 16 (1 / ((16 : Nat) : ℚ)) ∧
      ((writeN (List.replicate 16 0) 16 (1 / ((16 : Nat) : ℚ))).take 16).sum = 1) :=
  ⟨⟨le_refl 0, by decide, by decide, by decide⟩,
    evaluateBasis_regular_uniform sampleRegularTable 0 0 0 (List.replicate 16 0)
      (some (List.replicate 16 0)) none none none none 16 (le_refl 0)
      (by decide) (by decide) (by decide)⟩

/-- C7: PatchTable_EvaluateBasis returns false exactly when the table handle
is null, the patch index is outside the total patch range, or the located
patch array descriptor type is not REGULAR; and whenever it returns false
every weight buffer is left exactly as supplied. -/
theorem evaluateBasis_false_iff (patchIndex : Int) (u v : ℚ)
    (wP wDu wDv wDuu wDuv wDvv : Option (List ℚ)) :
    ((PatchTable_EvaluateBasis none patchIndex u v wP wDu wDv wDuu wDuv
      wDvv).ok = false) ∧
    (∀ t : PatchTable,
      ((PatchTable_EvaluateBasis (some t) patchIndex u v wP wDu wDv wDuu wDuv
          wDvv).ok = false ↔
        (patchIndex < 0 ∨ (t.numPatchesTotal : Int) ≤ patchIndex ∨
          t.descAt patchIndex ≠ PatchType.REGULAR))) ∧
    (∀ table : Option PatchTable,
      (PatchTable_EvaluateBasis table patchIndex u v wP wDu wDv wDuu wDuv
          wDvv).ok = false →
        PatchTable_EvaluateBasis table patchIndex u v wP wDu wDv wDuu wDuv wDvv =
          ⟨false, wP, wDu, wDv, wDuu, wDuv, wDvv⟩) := by
  refine ⟨rfl, ?_, ?_⟩
  · intro t
    by_cases hg : patchIndex < 0 ∨ (t.numPatchesTotal : Int) ≤ patchIndex
    · rcases hg with hg | hg <;>
        simp [PatchTable_EvaluateBasis, hg]
    · obtain ⟨hga, hgb⟩ := not_or.mp hg
      by_cases hr : t.descAt patchIndex = PatchType.REGULAR
      · simp [PatchTable_EvaluateBasis, hga, hgb, hr]
      · simp [PatchTable_EvaluateBasis, hga, hgb, hr]
  · intro table h
    cases table with
    | none => rfl
    | some t =>
      by_cases hg : patchIndex < 0 ∨ (t.numPatchesTotal : Int) ≤ patchIndex
      · simp [PatchTable_EvaluateBasis, hg]
      · by_cases hr : t.descAt patchIndex = PatchType.REGULAR
        · exfalso
          simp [PatchTable_EvaluateBasis, hg, hr] at h
        · simp [PatchTable_EvaluateBasis, hg, hr]

/-- Witness for the C7 theorem: the null-table case returns false unchanged,
and on the concrete REGULAR table the failure condition is refuted at
patch index 0 and established at patch index 5. -/
theorem evaluateBasis_false_iff_witness :
    ((PatchTable_EvaluateBasis none 0 0 0 (some [1]) none none none none
      none).ok = false) ∧
    ¬((PatchTable_EvaluateBasis (some sampleRegularTable) 0 0 0 (some [1])
      none none none none none).ok = false) ∧
    ((PatchTable_EvaluateBasis (some sampleRegularTable) 5 0 0 (some [1])
      none none none none none).ok = false) ∧
    PatchTable_EvaluateBasis none 0 0 0 (some [1]) none none none none none =
      ⟨false, some [1], none, none, none, none, none⟩ :=
  ⟨(evaluateBasis_false_iff 0 0 0 (some [1]) none none none none none).1,
    fun h => by
      have h2 := ((evaluateBasis_false_iff 0 0 0 (some [1]) none none none none
        none).2.1 sampleRegularTable).mp h
      revert h2
      decide,
    ((evaluateBasis_false_iff 5 0 0 (some [1]) none none none none
      none).2.1 sampleRegularTable).mpr (by decide),
    (evaluateBasis_false_iff 0 0 0 (some [1]) none none none none
      none).2.2 none rfl⟩

/-- C4 (amended): PatchTable_EvaluatePoint returns false and leaves the
caller result structure unchanged whenever it fails before the accumulation
phase — on a null table, null control points, a null result pointer, an
out-of-range patch index, or a failing basis evaluation (non-REGULAR
located descriptor). The original all-or-nothing claim fails only for the
control-vertex-index failure inside the accumulation loop, where the result
has already been zero-initialized and partially accumulated. -/
theorem evaluatePoint_unchanged_on_early_failure (table : Option PatchTable)
    (patchIndex : Int) (u v : ℚ) (controlPoints : Option (List ℚ))
    (numControlPoints : Int) (result : Option PatchEvalResult)
    (h : table = none ∨ controlPoints = none ∨ result = none ∨
      patchIndex < 0 ∨
      (∀ t, table = some t → ((t.numPatchesTotal : Int) ≤ patchIndex ∨
        t.descAt patchIndex ≠ PatchType.REGULAR))) :
    (PatchTable_EvaluatePoint table patchIndex u v controlPoints
      numControlPoints result).1 = false ∧
    (PatchTable_EvaluatePoint table patchIndex u v controlPoints
      numControlPoints result).2 = result := by
  cases table with
  | none => cases controlPoints <;> cases result <;> exact ⟨rfl, rfl⟩
  | some t =>
    cases controlPoints with
    | none => cases result <;> exact ⟨rfl, rfl⟩
    | some cps =>
      cases result with
      | none => exact ⟨rfl, rfl⟩
      | some res0 =>
        rcases h with h | h | h | h | h
        · exact absurd h (by simp)
        · exact absurd h (by simp)
        · exact absurd h (by simp)
        · simp [PatchTable_EvaluatePoint, h]
        · rcases h t rfl with h | h
          · simp [PatchTable_EvaluatePoint, h]
          · by_cases hg : patchIndex < 0 ∨ (t.numPatchesTotal : Int) ≤ patchIndex
            · simp [PatchTable_EvaluatePoint, hg]
            · simp [PatchTable_EvaluatePoint, PatchTable_EvaluateBasis, hg, h]

/-- Witness for the amended C4 theorem at a null table handle. -/
theorem evaluatePoint_unchanged_witness :
    (PatchTable_EvaluatePoint none 0 0 0 none 0 none).1 = false ∧
    (PatchTable_EvaluatePoint none 0 0 0 none 0 none).2 = none :=
  evaluatePoint_unchanged_on_early_failure none 0 0 0 none 0 none (Or.inl rfl)

/-- Concrete one-array REGULAR patch table whose control-vertex indices all
point at vertex 99, far beyond the single supplied control point. -/
def evalPointBugTable : PatchTable :=
  ⟨[⟨.REGULAR, 1, List.replicate 16 99, [⟨0, 0⟩]⟩]⟩

/-- A nonzero initial value for the caller result structure. -/
def evalPointInitResult : PatchEvalResult :=
  ⟨⟨5, 5, 5⟩, ⟨0, 0, 0⟩, ⟨0, 0, 0⟩, ⟨0, 0, 0⟩, ⟨0, 0, 0⟩, ⟨0, 0, 0⟩⟩

/-- C4 (counterexample): on the concrete table the first control-vertex
index (99) reaches the supplied control-point count (1), so the call
returns false — yet the caller result structure has been overwritten (it
has been zero-initialized), refuting the claim that a false return leaves
the result unchanged in the control-vertex-index failure case. -/
theorem evaluatePoint_counterexample :
    (1 : Int) ≤ (evalPointBugTable.arrays.getD 0 default).vertices.getD 0 0 ∧
    (PatchTable_EvaluatePoint (some evalPointBugTable) 0 0 0 (some [1, 2, 3]) 1
      (some evalPointInitResult)).1 = false ∧
    (PatchTable_EvaluatePoint (some evalPointBugTable) 0 0 0 (some [1, 2, 3]) 1
      (some evalPointInitResult)).2 ≠ some evalPointInitResult := by
  have hev : PatchTable_EvaluatePoint (some evalPointBugTable) 0 0 0
      (some [1, 2, 3]) 1 (some evalPointInitResult) =
      (false, some PatchEvalResult.zero) := rfl
  refine ⟨by decide, by rw [hev], ?_⟩
  rw [hev]
  simp only [Option.some.injEq, PatchEvalResult.zero, evalPointInitResult,
    PatchEvalResult.mk.injEq, Vec3.mk.injEq, ne_eq, not_and]
  intro hp
  exfalso
  norm_num at hp

end Osd
